import Mathlib

/-
Verification of the role-config-group client module
(src/python/src/cm_api/endpoints/role_config_groups.py).

The module is a thin HTTP client: it builds resource paths, serializes
request bodies, issues one verb per operation through an injected
transport (the resource root), and decodes responses into typed objects.
We embed it shallowly: the injected transport is a function from requests
to responses, each operation returns its result together with the list of
transport calls it issued, and the external helpers from the repository's
types/roles modules (absent from the excerpt) are modelled from the spec.
-/

/-- JSON values, the wire format of the client.  Only the constructors the
module's bodies and responses use are modelled.  The external json.dumps
serialization is injective, so request bodies are kept as JSON trees. -/
inductive Json where
  | null : Json
  | bool (b : Bool) : Json
  | str (s : String) : Json
  | arr (xs : List Json) : Json
  | obj (fields : List (String × Json)) : Json

/-- Errors an operation can surface: transport/HTTP failures propagated
unchanged from the injected transport, the Python IndexError from an
unguarded list index, the AttributeError from touching an unset entity
attribute, and decode failures on malformed response shapes. -/
inductive ApiError where
  | transport (msg : String) : ApiError
  | indexError : ApiError
  | attributeError : ApiError
  | decodeError (msg : String) : ApiError
deriving DecidableEq, Repr

/-- The HTTP verbs the module issues. -/
inductive Verb where
  | get | post | put | delete
deriving DecidableEq, Repr

/-- One transport call: verb, path, optional query parameters, optional
JSON request body. -/
structure Request where
  verb : Verb
  path : String
  params : Option (List (String × String))
  data : Option Json

/-- The injected resource root: maps each request to a parsed JSON
response, or raises. -/
def Transport : Type := Request → Except ApiError Json

/-- Embedding of resource_root.get(path, params). -/
def Transport.get (root : Transport) (path : String)
    (params : Option (List (String × String))) :
    Except ApiError Json × List Request :=
  let req : Request := ⟨Verb.get, path, params, none⟩
  (root req, [req])

/-- Embedding of resource_root.post(path, data). -/
def Transport.post (root : Transport) (path : String) (data : Option Json) :
    Except ApiError Json × List Request :=
  let req : Request := ⟨Verb.post, path, none, data⟩
  (root req, [req])

/-- Embedding of resource_root.put(path, data). -/
def Transport.put (root : Transport) (path : String) (data : Option Json) :
    Except ApiError Json × List Request :=
  let req : Request := ⟨Verb.put, path, none, data⟩
  (root req, [req])

/-- Embedding of resource_root.delete(path). -/
def Transport.del (root : Transport) (path : String) :
    Except ApiError Json × List Request :=
  let req : Request := ⟨Verb.delete, path, none, none⟩
  (root req, [req])

/-- A Python string argument that may be None; cluster_name and view are
such arguments. -/
abbrev PyStr : Type := Option String

/-- Python truthiness of an optional string: None and the empty string are
falsy, every other string is truthy. -/
def pyTruthy : PyStr → Bool
  | none => false
  | some s => !s.isEmpty

/-- The string Python would substitute for the value (None prints as
"None"; the branch structure of the module never substitutes None). -/
def pyStrVal : PyStr → String
  | none => "None"
  | some s => s

/-- Character-level engine of Python %-formatting restricted to %s
conversions: scan the template, replacing each %s with the next argument;
substituted text is not rescanned. -/
def formatSAux : List Char → List String → List Char
  | [], _ => []
  | '%' :: 's' :: rest, a :: args => a.data ++ formatSAux rest args
  | c :: rest, args => c :: formatSAux rest args

/-- Python "template % (args)" for templates whose conversions are all %s. -/
def formatS (template : String) (args : List String) : String :=
  ⟨formatSAux template.data args⟩

/-- Source constant ROLE_CONFIG_GROUPS_PATH. -/
def ROLE_CONFIG_GROUPS_PATH : String :=
  "/clusters/%s/services/%s/roleConfigGroups"

/-- Source constant CM_ROLE_CONFIG_GROUPS_PATH. -/
def CM_ROLE_CONFIG_GROUPS_PATH : String := "/cm/service/roleConfigGroups"

/-- Embedding of _get_role_config_groups_path: the cluster-scoped template
when cluster_name is truthy, the fixed cluster-management path otherwise. -/
def _get_role_config_groups_path (cluster_name : PyStr)
    (service_name : String) : String :=
  if pyTruthy cluster_name then
    formatS ROLE_CONFIG_GROUPS_PATH [pyStrVal cluster_name, service_name]
  else
    CM_ROLE_CONFIG_GROUPS_PATH

/-- Embedding of _get_role_config_group_path: collection path with the
group name appended after a slash. -/
def _get_role_config_group_path (cluster_name : PyStr)
    (service_name name : String) : String :=
  formatS "%s/%s" [_get_role_config_groups_path cluster_name service_name, name]


/-- First value bound to a key in a JSON object's field list. -/
def jsonLookup (key : String) : List (String × Json) → Option Json
  | [] => none
  | kv :: rest => if kv.1 = key then some kv.2 else jsonLookup key rest

/-- A Python list comprehension over a fallible element decoder: stops at
the first raised error, otherwise collects the results in order. -/
def exceptMap (f : α → Except ApiError β) : List α → Except ApiError (List β)
  | [] => Except.ok []
  | x :: xs =>
    match f x with
    | Except.error e => Except.error e
    | Except.ok y =>
      match exceptMap f xs with
      | Except.error e => Except.error e
      | Except.ok ys => Except.ok (y :: ys)

/-- Source constant ApiList.LIST_KEY from the repository's types module. -/
def ApiList.LIST_KEY : String := "items"

/-- Modelled from the spec: ApiList.from_json_dict of the repository's
types module (absent from the excerpt) decodes the items envelope, mapping
the member decoder over the array bound to the items key. -/
def ApiList.from_json_dict (memberFromJson : Json → Except ApiError α)
    (dic : Json) : Except ApiError (List α) :=
  match dic with
  | Json.obj fields =>
    match jsonLookup ApiList.LIST_KEY fields with
    | some (Json.arr xs) => exceptMap memberFromJson xs
    | _ => Except.error (ApiError.decodeError "items")
  | _ => Except.error (ApiError.decodeError "list envelope")

/-- Modelled from the spec: ApiList.to_json_dict of the types module wraps
the serialized members in the items envelope. -/
def ApiList.to_json_dict (xs : List Json) : Json :=
  Json.obj [(ApiList.LIST_KEY, Json.arr xs)]

/-- Modelled from the spec: the read-only serviceRef back-reference, naming
the cluster (absent for the cluster-management service) and service the
group belongs to. -/
structure ApiServiceRef where
  clusterName : PyStr
  serviceName : String

/-- Modelled from the spec: decoding a serviceRef object from a response. -/
def ApiServiceRef.from_json_dict (dic : Json) : Except ApiError ApiServiceRef :=
  match dic with
  | Json.obj fs =>
    match jsonLookup "serviceName" fs with
    | some (Json.str s) =>
      match jsonLookup "clusterName" fs with
      | some (Json.str c) => Except.ok ⟨some c, s⟩
      | _ => Except.ok ⟨none, s⟩
    | _ => Except.error (ApiError.decodeError "serviceRef")
  | _ => Except.error (ApiError.decodeError "serviceRef")

/-- The ApiRoleConfigGroup entity: the whitelisted attributes of the data
model.  RW_ATTR are name, displayName, roleType, config; RO_ATTR are base
and serviceRef.  An attribute may be unset (none). -/
structure ApiRoleConfigGroup where
  name : Option String
  displayName : Option String
  roleType : Option String
  config : Option Json
  base : Option Json
  serviceRef : Option ApiServiceRef

/-- Embedding of the ApiRoleConfigGroup constructor: sets the RW
attributes from its arguments and leaves the read-only ones unset. -/
def ApiRoleConfigGroup.init (name displayName roleType : String)
    (config : Option Json) : ApiRoleConfigGroup :=
  ⟨some name, some displayName, some roleType, config, none, none⟩

/-- Decode an optional string-valued attribute out of an object's fields:
absent attributes stay unset, a non-string where the data model says
string is a decode failure. -/
def optStrField (key : String) (fs : List (String × Json)) :
    Except ApiError (Option String) :=
  match jsonLookup key fs with
  | none => Except.ok none
  | some (Json.str s) => Except.ok (some s)
  | some _ => Except.error (ApiError.decodeError key)

/-- Modelled from the spec: ApiRoleConfigGroup.from_json_dict, inherited
from the generic base object of the types module, populates the
whitelisted attributes from the response object and ignores other keys. -/
def ApiRoleConfigGroup.from_json_dict (dic : Json) :
    Except ApiError ApiRoleConfigGroup :=
  match dic with
  | Json.obj fs =>
    match optStrField "name" fs with
    | Except.error e => Except.error e
    | Except.ok nm =>
      match optStrField "displayName" fs with
      | Except.error e => Except.error e
      | Except.ok dn =>
        match optStrField "roleType" fs with
        | Except.error e => Except.error e
        | Except.ok rt =>
          match jsonLookup "serviceRef" fs with
          | none =>
            Except.ok ⟨nm, dn, rt, jsonLookup "config" fs,
              jsonLookup "base" fs, none⟩
          | some j =>
            match ApiServiceRef.from_json_dict j with
            | Except.error e => Except.error e
            | Except.ok ref =>
              Except.ok ⟨nm, dn, rt, jsonLookup "config" fs,
                jsonLookup "base" fs, some ref⟩
  | _ => Except.error (ApiError.decodeError "role config group")

/-- Emit an attribute when it is set. -/
def optJsonField (key : String) : Option String → List (String × Json)
  | none => []
  | some s => [(key, Json.str s)]

/-- Modelled from the spec: to_json_dict of the generic base object
serializes the read-write attributes that are set. -/
def ApiRoleConfigGroup.to_json_dict (g : ApiRoleConfigGroup) : Json :=
  Json.obj (optJsonField "name" g.name ++ optJsonField "displayName" g.displayName
    ++ optJsonField "roleType" g.roleType
    ++ (match g.config with | none => [] | some j => [("config", j)]))

/-- Modelled from the spec: the external role object model; only the role
name matters to this module. -/
structure ApiRole where
  name : Option String
deriving DecidableEq, Repr

/-- Modelled from the spec: ApiRole.from_json_dict of the roles module
decodes a role object, keeping its name attribute. -/
def ApiRole.from_json_dict (dic : Json) : Except ApiError ApiRole :=
  match dic with
  | Json.obj fs =>
    match jsonLookup "name" fs with
    | some (Json.str s) => Except.ok ⟨some s⟩
    | _ => Except.ok ⟨none⟩
  | _ => Except.error (ApiError.decodeError "role object")

/-- Embedding of create_role_config_groups: POST the serialized list to
the collection path, decode the response as a list of groups.  The result
pairs the operation's outcome with the transport calls it issued. -/
def create_role_config_groups (resource_root : Transport)
    (service_name : String) (apigroup_list : List ApiRoleConfigGroup)
    (cluster_name : PyStr) :
    Except ApiError (List ApiRoleConfigGroup) × List Request :=
  let body := ApiList.to_json_dict (apigroup_list.map ApiRoleConfigGroup.to_json_dict)
  let rc := Transport.post resource_root
    (_get_role_config_groups_path cluster_name service_name) (some body)
  (match rc.1 with
   | Except.error e => Except.error e
   | Except.ok resp => ApiList.from_json_dict ApiRoleConfigGroup.from_json_dict resp,
   rc.2)

/-- Embedding of create_role_config_group: build the one-element list,
delegate to create_role_config_groups, and take element [0] of the result
(an unguarded Python index raising IndexError on an empty list). -/
def create_role_config_group (resource_root : Transport)
    (service_name name display_name role_type : String)
    (cluster_name : PyStr) :
    Except ApiError ApiRoleConfigGroup × List Request :=
  let apigroup := ApiRoleConfigGroup.init name display_name role_type none
  let rc := create_role_config_groups resource_root service_name [apigroup]
    cluster_name
  (match rc.1 with
   | Except.error e => Except.error e
   | Except.ok [] => Except.error ApiError.indexError
   | Except.ok (g :: _) => Except.ok g,
   rc.2)

/-- Embedding of the private fetch helper _get_role_config_group: GET the
path, decode a single group. -/
def _get_role_config_group (resource_root : Transport) (path : String) :
    Except ApiError ApiRoleConfigGroup × List Request :=
  let rc := Transport.get resource_root path none
  (match rc.1 with
   | Except.error e => Except.error e
   | Except.ok dic => ApiRoleConfigGroup.from_json_dict dic,
   rc.2)

/-- Embedding of get_role_config_group: fetch-by-name through the helper. -/
def get_role_config_group (resource_root : Transport)
    (service_name name : String) (cluster_name : PyStr) :
    Except ApiError ApiRoleConfigGroup × List Request :=
  _get_role_config_group resource_root
    (_get_role_config_group_path cluster_name service_name name)

/-- Embedding of get_all_role_config_groups: GET the collection path,
decode a list of groups. -/
def get_all_role_config_groups (resource_root : Transport)
    (service_name : String) (cluster_name : PyStr) :
    Except ApiError (List ApiRoleConfigGroup) × List Request :=
  let rc := Transport.get resource_root
    (_get_role_config_groups_path cluster_name service_name) none
  (match rc.1 with
   | Except.error e => Except.error e
   | Except.ok dic => ApiList.from_json_dict ApiRoleConfigGroup.from_json_dict dic,
   rc.2)

/-- Embedding of update_role_config_group: PUT the serialized group to the
singleton path, decode the response as a single group. -/
def update_role_config_group (resource_root : Transport)
    (service_name name : String) (apigroup : ApiRoleConfigGroup)
    (cluster_name : PyStr) :
    Except ApiError ApiRoleConfigGroup × List Request :=
  let rc := Transport.put resource_root
    (_get_role_config_group_path cluster_name service_name name)
    (some apigroup.to_json_dict)
  (match rc.1 with
   | Except.error e => Except.error e
   | Except.ok resp => ApiRoleConfigGroup.from_json_dict resp,
   rc.2)

/-- Embedding of delete_role_config_group: DELETE the singleton path,
decode the response as a single group. -/
def delete_role_config_group (resource_root : Transport)
    (service_name name : String) (cluster_name : PyStr) :
    Except ApiError ApiRoleConfigGroup × List Request :=
  let rc := Transport.del resource_root
    (_get_role_config_group_path cluster_name service_name name)
  (match rc.1 with
   | Except.error e => Except.error e
   | Except.ok resp => ApiRoleConfigGroup.from_json_dict resp,
   rc.2)

/-- Embedding of move_roles (module level): PUT the items envelope of the
role names to the singleton path plus /roles, decode a list of roles. -/
def move_roles (resource_root : Transport) (service_name name : String)
    (role_names : List String) (cluster_name : PyStr) :
    Except ApiError (List ApiRole) × List Request :=
  let path := _get_role_config_group_path cluster_name service_name name
    ++ "/roles"
  let rc := Transport.put resource_root path
    (some (Json.obj [(ApiList.LIST_KEY, Json.arr (role_names.map Json.str))]))
  (match rc.1 with
   | Except.error e => Except.error e
   | Except.ok resp => ApiList.from_json_dict ApiRole.from_json_dict resp,
   rc.2)

/-- Embedding of move_roles_to_base_role_config_group: PUT the items
envelope of the role names to the collection path plus /roles, decode a
list of roles. -/
def move_roles_to_base_role_config_group (resource_root : Transport)
    (service_name : String) (role_names : List String)
    (cluster_name : PyStr) :
    Except ApiError (List ApiRole) × List Request :=
  let path := _get_role_config_groups_path cluster_name service_name
    ++ "/roles"
  let rc := Transport.put resource_root path
    (some (Json.obj [(ApiList.LIST_KEY, Json.arr (role_names.map Json.str))]))
  (match rc.1 with
   | Except.error e => Except.error e
   | Except.ok resp => ApiList.from_json_dict ApiRole.from_json_dict resp,
   rc.2)

/-- A decoded configuration value: the summary view yields the plain
string value (possibly absent), the full view yields the rich per-item
config object of the external config-item model. -/
inductive ConfigValue where
  | summary (value : Option String) : ConfigValue
  | full (item : Json) : ConfigValue

/-- Modelled from the spec: decoding one entry of the config items list;
the entry names its key, and the value is the plain value string in
summary mode or the whole rich item in full mode. -/
def configItemFromJson (full : Bool) (item : Json) :
    Except ApiError (String × ConfigValue) :=
  match item with
  | Json.obj fs =>
    match jsonLookup "name" fs with
    | some (Json.str n) =>
      if full then Except.ok (n, ConfigValue.full item)
      else
        Except.ok (n, ConfigValue.summary
          (match jsonLookup "value" fs with
           | some (Json.str v) => some v
           | _ => none))
    | _ => Except.error (ApiError.decodeError "config name")
  | _ => Except.error (ApiError.decodeError "config item")

/-- Modelled from the spec: json_to_config of the types module decodes the
items envelope of config entries into a key-to-value mapping; the full
flag (Python default False) selects rich or plain values. -/
def json_to_config (dic : Json) (full : Bool) :
    Except ApiError (List (String × ConfigValue)) :=
  match dic with
  | Json.obj fields =>
    match jsonLookup ApiList.LIST_KEY fields with
    | some (Json.arr xs) => exceptMap (configItemFromJson full) xs
    | _ => Except.error (ApiError.decodeError "items")
  | _ => Except.error (ApiError.decodeError "config dict")

/-- Modelled from the spec: config_to_json of the types module serializes
a key-to-value mapping as the items envelope of name/value entries,
sending only the supplied keys. -/
def config_to_json (config : List (String × String)) : Json :=
  Json.obj [(ApiList.LIST_KEY, Json.arr (config.map (fun kv =>
    Json.obj [("name", Json.str kv.1), ("value", Json.str kv.2)])))]

/-- Embedding of ApiRoleConfigGroup._path: the singleton path built from
the group's own serviceRef and name; touching an unset attribute raises
AttributeError before any transport call. -/
def ApiRoleConfigGroup.selfPath (g : ApiRoleConfigGroup) :
    Except ApiError String :=
  match g.serviceRef, g.name with
  | some ref, some nm =>
    Except.ok (_get_role_config_group_path ref.clusterName ref.serviceName nm)
  | _, _ => Except.error ApiError.attributeError

/-- Embedding of ApiRoleConfigGroup.get_config: GET the singleton path
plus /config; "params = view and dict(view=view) or None" sends the view
query parameter exactly when view is truthy; the response is decoded by
json_to_config with the full flag set exactly when view == full. -/
def ApiRoleConfigGroup.get_config (g : ApiRoleConfigGroup)
    (resource_root : Transport) (view : PyStr) :
    Except ApiError (List (String × ConfigValue)) × List Request :=
  match g.selfPath with
  | Except.error e => (Except.error e, [])
  | Except.ok p =>
    let path := p ++ "/config"
    let params : Option (List (String × String)) :=
      if pyTruthy view then some [("view", pyStrVal view)] else none
    let rc := Transport.get resource_root path params
    (match rc.1 with
     | Except.error e => Except.error e
     | Except.ok resp => json_to_config resp (view == some "full"),
     rc.2)

/-- Embedding of ApiRoleConfigGroup.update_config: PUT the serialized
config mapping to the singleton path plus /config; the response is decoded
by json_to_config with the full flag at its Python default False. -/
def ApiRoleConfigGroup.update_config (g : ApiRoleConfigGroup)
    (resource_root : Transport) (config : List (String × String)) :
    Except ApiError (List (String × ConfigValue)) × List Request :=
  match g.selfPath with
  | Except.error e => (Except.error e, [])
  | Except.ok p =>
    let path := p ++ "/config"
    let rc := Transport.put resource_root path (some (config_to_json config))
    (match rc.1 with
     | Except.error e => Except.error e
     | Except.ok resp => json_to_config resp false,
     rc.2)

/-- Fixture transport whose response names a role outside any requested
set: the client decodes and returns it unfiltered. -/
def rogueTransport : Transport := fun _ =>
  Except.ok (Json.obj [(ApiList.LIST_KEY,
    Json.arr [Json.obj [("name", Json.str "x")]])])

/-- Fixture transport answering a two-role move request with only one
moved role, the partial-success shape of the remote API. -/
def subsetTransport : Transport := fun _ =>
  Except.ok (Json.obj [(ApiList.LIST_KEY,
    Json.arr [Json.obj [("name", Json.str "a")]])])

/-- Fixture transport answering a batch create with a one-group list. -/
def createdOneTransport : Transport := fun _ =>
  Except.ok (Json.obj [(ApiList.LIST_KEY,
    Json.arr [Json.obj [("name", Json.str "n")]])])

/-- The group decoded from createdOneTransport's response. -/
def createdOneGroup : ApiRoleConfigGroup :=
  ⟨some "n", none, none, none, none, none⟩

/-- Fixture transport answering a batch create with an empty list. -/
def createdEmptyTransport : Transport := fun _ =>
  Except.ok (Json.obj [(ApiList.LIST_KEY, Json.arr [])])

/-- Fixture transport returning a deleted group's prior state. -/
def priorStateTransport : Transport := fun _ =>
  Except.ok (Json.obj [("name", Json.str "g"), ("displayName", Json.str "G"),
    ("roleType", Json.str "DATANODE"), ("base", Json.bool false),
    ("serviceRef", Json.obj [("clusterName", Json.str "c1"),
      ("serviceName", Json.str "svc")])])

/-- The prior-state group decoded from priorStateTransport's response. -/
def priorStateGroup : ApiRoleConfigGroup :=
  ⟨some "g", some "G", some "DATANODE", none, some (Json.bool false),
    some ⟨some "c1", "svc"⟩⟩

/-- Fixture transport returning the spec's config fixture, one item named
k with plain value v. -/
def cfgTransport : Transport := fun _ =>
  Except.ok (Json.obj [(ApiList.LIST_KEY,
    Json.arr [Json.obj [("name", Json.str "k"), ("value", Json.str "v")]])])

/-- Fixture serviceRef for the entity-method fixtures. -/
def cfgRef : ApiServiceRef := ⟨some "c1", "svc"⟩

/-- Fixture group with serviceRef and name set, as after a server read. -/
def cfgGroup : ApiRoleConfigGroup :=
  ⟨some "g", none, none, none, none, some cfgRef⟩

/-- The cluster-scoped template substituted with cluster and service, as
plain concatenation. -/
theorem formatS_role_config_groups (c s : String) :
    formatS ROLE_CONFIG_GROUPS_PATH [c, s]
      = "/clusters/" ++ c ++ "/services/" ++ s ++ "/roleConfigGroups" := by
  apply String.ext
  simp [formatS, String.data_append]
  rfl

/-- A truthy optional string is a non-empty present string. -/
theorem pyTruthy_some_iff (s : String) : pyTruthy (some s) = true ↔ s ≠ "" := by
  simp [pyTruthy, ← String.isEmpty_iff, Bool.not_eq_true]

/-- C1: with a truthy (non-empty) cluster_name, _get_role_config_groups_path
returns the cluster-scoped template with cluster_name and service_name
substituted in that order; with a falsy cluster_name (None or the empty
string) it returns the fixed cluster-management path regardless of
service_name. -/
theorem C1_role_config_groups_path_selection :
    (∀ (c s : String), c ≠ "" →
      _get_role_config_groups_path (some c) s
        = "/clusters/" ++ c ++ "/services/" ++ s ++ "/roleConfigGroups")
    ∧ (∀ s : String,
        _get_role_config_groups_path none s = CM_ROLE_CONFIG_GROUPS_PATH
        ∧ _get_role_config_groups_path (some "") s = CM_ROLE_CONFIG_GROUPS_PATH)
    ∧ CM_ROLE_CONFIG_GROUPS_PATH = "/cm/service/roleConfigGroups" := by
  refine ⟨fun c s hc => ?_, fun s => ⟨rfl, rfl⟩, rfl⟩
  rw [_get_role_config_groups_path]
  rw [if_pos ((pyTruthy_some_iff c).mpr hc)]
  exact formatS_role_config_groups c s

/-- Witness for C1 at cluster c1, service svc. -/
theorem C1_role_config_groups_path_selection_witness :
    "c1" ≠ ""
    ∧ _get_role_config_groups_path (some "c1") "svc"
        = "/clusters/" ++ "c1" ++ "/services/" ++ "svc" ++ "/roleConfigGroups" :=
  ⟨by decide, C1_role_config_groups_path_selection.1 "c1" "svc" (by decide)⟩

/-- C5: move_roles issues a PUT to the singleton group path plus /roles
and move_roles_to_base_role_config_group a PUT to the collection path plus
/roles, each carrying as body the items envelope of the requested role
names, with no query parameters. -/
theorem C5_move_requests_shape :
    (∀ (root : Transport) (s n : String) (rns : List String) (c : PyStr),
      (move_roles root s n rns c).2
        = [⟨Verb.put, _get_role_config_group_path c s n ++ "/roles", none,
            some (Json.obj [(ApiList.LIST_KEY, Json.arr (rns.map Json.str))])⟩])
    ∧ (∀ (root : Transport) (s : String) (rns : List String) (c : PyStr),
      (move_roles_to_base_role_config_group root s rns c).2
        = [⟨Verb.put, _get_role_config_groups_path c s ++ "/roles", none,
            some (Json.obj [(ApiList.LIST_KEY, Json.arr (rns.map Json.str))])⟩]) :=
  ⟨fun _ _ _ _ _ => rfl, fun _ _ _ _ => rfl⟩

/-- C6: every module-level operation issues exactly one transport call per
invocation, and create_role_config_group issues none of its own: its call
trace is exactly the trace of its single delegation to
create_role_config_groups, still one call in total. -/
theorem C6_exactly_one_transport_call :
    (∀ (root : Transport) (s : String) (l : List ApiRoleConfigGroup) (c : PyStr),
      (create_role_config_groups root s l c).2.length = 1)
    ∧ (∀ (root : Transport) (s n : String) (c : PyStr),
      (get_role_config_group root s n c).2.length = 1)
    ∧ (∀ (root : Transport) (s : String) (c : PyStr),
      (get_all_role_config_groups root s c).2.length = 1)
    ∧ (∀ (root : Transport) (s n : String) (g : ApiRoleConfigGroup) (c : PyStr),
      (update_role_config_group root s n g c).2.length = 1)
    ∧ (∀ (root : Transport) (s n : String) (c : PyStr),
      (delete_role_config_group root s n c).2.length = 1)
    ∧ (∀ (root : Transport) (s n : String) (rns : List String) (c : PyStr),
      (move_roles root s n rns c).2.length = 1)
    ∧ (∀ (root : Transport) (s : String) (rns : List String) (c : PyStr),
      (move_roles_to_base_role_config_group root s rns c).2.length = 1)
    ∧ (∀ (root : Transport) (s n d t : String) (c : PyStr),
      (create_role_config_group root s n d t c).2
        = (create_role_config_groups root s
            [ApiRoleConfigGroup.init n d t none] c).2
      ∧ (create_role_config_group root s n d t c).2.length = 1) :=
  ⟨fun _ _ _ _ => rfl, fun _ _ _ _ => rfl, fun _ _ _ => rfl,
   fun _ _ _ _ _ => rfl, fun _ _ _ _ => rfl, fun _ _ _ _ _ => rfl,
   fun _ _ _ _ => rfl, fun _ _ _ _ _ _ => ⟨rfl, rfl⟩⟩

/-- C3: create_role_config_group delegates to create_role_config_groups on
the one-element list built from its arguments, issuing no transport call
of its own (identical call traces); it returns the first element of the
batch result and propagates any batch error unchanged. -/
theorem C3_create_single_delegates :
    ∀ (root : Transport) (s n d t : String) (c : PyStr),
      ((create_role_config_group root s n d t c).2
        = (create_role_config_groups root s
            [ApiRoleConfigGroup.init n d t none] c).2)
      ∧ (∀ (g : ApiRoleConfigGroup) (gs : List ApiRoleConfigGroup),
          (create_role_config_groups root s
              [ApiRoleConfigGroup.init n d t none] c).1 = Except.ok (g :: gs) →
          (create_role_config_group root s n d t c).1 = Except.ok g)
      ∧ (∀ e : ApiError,
          (create_role_config_groups root s
              [ApiRoleConfigGroup.init n d t none] c).1 = Except.error e →
          (create_role_config_group root s n d t c).1 = Except.error e) := by
  intro root s n d t c
  refine ⟨rfl, fun g gs h => ?_, fun e h => ?_⟩
  · show (match (create_role_config_groups root s
        [ApiRoleConfigGroup.init n d t none] c).1 with
      | Except.error e => Except.error e
      | Except.ok [] => Except.error ApiError.indexError
      | Except.ok (g1 :: _) => Except.ok g1) = Except.ok g
    rw [h]
  · show (match (create_role_config_groups root s
        [ApiRoleConfigGroup.init n d t none] c).1 with
      | Except.error e => Except.error e
      | Except.ok [] => Except.error ApiError.indexError
      | Except.ok (g1 :: _) => Except.ok g1) = Except.error e
    rw [h]

/-- Witness for C3: a fixture batch response with one created group makes
the wrapper return exactly that sole group. -/
theorem C3_create_single_delegates_witness :
    (create_role_config_groups createdOneTransport "svc"
        [ApiRoleConfigGroup.init "n" "d" "t" none] (some "c")).1
      = Except.ok [createdOneGroup]
    ∧ (create_role_config_group createdOneTransport "svc" "n" "d" "t"
        (some "c")).1 = Except.ok createdOneGroup :=
  ⟨rfl, (C3_create_single_delegates createdOneTransport "svc" "n" "d" "t"
      (some "c")).2.1 createdOneGroup [] rfl⟩

/-- C7: delete_role_config_group issues a single DELETE on the singleton
path and returns the group decoded from the transport's response body;
when that body decodes to a group (the state before deletion), the result
is exactly that group, not an empty value. -/
theorem C7_delete_returns_prior_state :
    ∀ (root : Transport) (s n : String) (c : PyStr),
      ((delete_role_config_group root s n c).2
        = [⟨Verb.delete, _get_role_config_group_path c s n, none, none⟩])
      ∧ (∀ resp : Json,
          root ⟨Verb.delete, _get_role_config_group_path c s n, none, none⟩
            = Except.ok resp →
          (delete_role_config_group root s n c).1
            = ApiRoleConfigGroup.from_json_dict resp)
      ∧ (∀ (resp : Json) (g : ApiRoleConfigGroup),
          root ⟨Verb.delete, _get_role_config_group_path c s n, none, none⟩
            = Except.ok resp →
          ApiRoleConfigGroup.from_json_dict resp = Except.ok g →
          (delete_role_config_group root s n c).1 = Except.ok g) := by
  intro root s n c
  refine ⟨rfl, fun resp h => ?_, fun resp g h hg => ?_⟩
  · show (match root ⟨Verb.delete, _get_role_config_group_path c s n,
        none, none⟩ with
      | Except.error e => Except.error e
      | Except.ok resp => ApiRoleConfigGroup.from_json_dict resp)
      = ApiRoleConfigGroup.from_json_dict resp
    rw [h]
  · show (match root ⟨Verb.delete, _get_role_config_group_path c s n,
        none, none⟩ with
      | Except.error e => Except.error e
      | Except.ok resp => ApiRoleConfigGroup.from_json_dict resp)
      = Except.ok g
    rw [h]
    exact hg

/-- Witness for C7: the fixture prior-state response is returned as the
decoded group. -/
theorem C7_delete_returns_prior_state_witness :
    priorStateTransport
        ⟨Verb.delete, _get_role_config_group_path (some "c1") "svc" "g",
          none, none⟩
      = Except.ok (Json.obj [("name", Json.str "g"),
          ("displayName", Json.str "G"), ("roleType", Json.str "DATANODE"),
          ("base", Json.bool false),
          ("serviceRef", Json.obj [("clusterName", Json.str "c1"),
            ("serviceName", Json.str "svc")])])
    ∧ (delete_role_config_group priorStateTransport "svc" "g" (some "c1")).1
      = Except.ok priorStateGroup :=
  ⟨rfl, (C7_delete_returns_prior_state priorStateTransport "svc" "g"
      (some "c1")).2.2 _ priorStateGroup rfl rfl⟩

/-- C8: the [0] access in create_role_config_group is unguarded: an empty
decoded batch response yields the Python IndexError rather than None, and
a normal return requires at least one decoded item. -/
theorem C8_unguarded_first_element :
    ∀ (root : Transport) (s n d t : String) (c : PyStr),
      ((create_role_config_groups root s
          [ApiRoleConfigGroup.init n d t none] c).1 = Except.ok [] →
        (create_role_config_group root s n d t c).1
          = Except.error ApiError.indexError)
      ∧ (∀ g : ApiRoleConfigGroup,
          (create_role_config_group root s n d t c).1 = Except.ok g →
          ∃ gs, (create_role_config_groups root s
              [ApiRoleConfigGroup.init n d t none] c).1
            = Except.ok (g :: gs)) := by
  intro root s n d t c
  constructor
  · intro h
    show (match (create_role_config_groups root s
        [ApiRoleConfigGroup.init n d t none] c).1 with
      | Except.error e => Except.error e
      | Except.ok [] => Except.error ApiError.indexError
      | Except.ok (g1 :: _) => Except.ok g1) = Except.error ApiError.indexError
    rw [h]
  · intro g h
    have h' : (match (create_role_config_groups root s
        [ApiRoleConfigGroup.init n d t none] c).1 with
      | Except.error e => Except.error e
      | Except.ok [] => Except.error ApiError.indexError
      | Except.ok (g1 :: _) => Except.ok g1) = Except.ok g := h
    cases hb : (create_role_config_groups root s
        [ApiRoleConfigGroup.init n d t none] c).1 with
    | error e => rw [hb] at h'; exact absurd h' (by simp)
    | ok gs =>
      rw [hb] at h'
      cases gs with
      | nil => exact absurd h' (by simp)
      | cons g0 gs0 =>
        injection h' with h''
        subst h''
        exact ⟨gs0, rfl⟩

/-- Witness for C8: a fixture batch response with an empty items list
drives the wrapper into the IndexError outcome. -/
theorem C8_unguarded_first_element_witness :
    (create_role_config_groups createdEmptyTransport "svc"
        [ApiRoleConfigGroup.init "n" "d" "t" none] (some "c")).1
      = Except.ok []
    ∧ (create_role_config_group createdEmptyTransport "svc" "n" "d" "t"
        (some "c")).1 = Except.error ApiError.indexError :=
  ⟨rfl, (C8_unguarded_first_element createdEmptyTransport "svc" "n" "d" "t"
      (some "c")).1 rfl⟩

/-- C2 counterexample: the client does not filter the decoded response
against the requested names.  With requested role_names = [a], a transport
response naming role x makes both move operations return a role outside
the requested set, so the returned list is not a subset of the request for
every transport response. -/
theorem C2_subset_counterexample :
    (move_roles rogueTransport "svc" "g" ["a"] (some "c")).1
      = Except.ok [⟨some "x"⟩]
    ∧ (move_roles_to_base_role_config_group rogueTransport "svc" ["a"]
        (some "c")).1 = Except.ok [⟨some "x"⟩]
    ∧ ¬ (∀ r ∈ [(⟨some "x"⟩ : ApiRole)], ∀ nm : String,
          r.name = some nm → nm ∈ ["a"]) :=
  ⟨rfl, rfl, fun h => by
    have hx := h ⟨some "x"⟩ (by simp) "x" rfl
    simp at hx⟩

/-- C2 (amended): both move operations return exactly the list of roles
decoded from the transport's response, without error; in particular, when
the response names a strict subset of the requested role_names, the caller
sees exactly that subset and no error is raised. -/
theorem C2_move_roles_return_decoded_list :
    (∀ (root : Transport) (s n : String) (rns : List String) (c : PyStr)
        (resp : Json) (rs : List ApiRole),
      root ⟨Verb.put, _get_role_config_group_path c s n ++ "/roles", none,
          some (Json.obj [(ApiList.LIST_KEY, Json.arr (rns.map Json.str))])⟩
        = Except.ok resp →
      ApiList.from_json_dict ApiRole.from_json_dict resp = Except.ok rs →
      (move_roles root s n rns c).1 = Except.ok rs)
    ∧ (∀ (root : Transport) (s : String) (rns : List String) (c : PyStr)
        (resp : Json) (rs : List ApiRole),
      root ⟨Verb.put, _get_role_config_groups_path c s ++ "/roles", none,
          some (Json.obj [(ApiList.LIST_KEY, Json.arr (rns.map Json.str))])⟩
        = Except.ok resp →
      ApiList.from_json_dict ApiRole.from_json_dict resp = Except.ok rs →
      (move_roles_to_base_role_config_group root s rns c).1 = Except.ok rs) := by
  constructor
  · intro root s n rns c resp rs h hd
    show (match root ⟨Verb.put, _get_role_config_group_path c s n ++ "/roles",
        none,
        some (Json.obj [(ApiList.LIST_KEY, Json.arr (rns.map Json.str))])⟩ with
      | Except.error e => Except.error e
      | Except.ok resp => ApiList.from_json_dict ApiRole.from_json_dict resp)
      = Except.ok rs
    rw [h]
    exact hd
  · intro root s rns c resp rs h hd
    show (match root ⟨Verb.put, _get_role_config_groups_path c s ++ "/roles",
        none,
        some (Json.obj [(ApiList.LIST_KEY, Json.arr (rns.map Json.str))])⟩ with
      | Except.error e => Except.error e
      | Except.ok resp => ApiList.from_json_dict ApiRole.from_json_dict resp)
      = Except.ok rs
    rw [h]
    exact hd

/-- Witness for the amended C2: two roles requested, the fixture transport
moves only one; the caller sees exactly that one-role subset, no error. -/
theorem C2_move_roles_return_decoded_list_witness :
    subsetTransport ⟨Verb.put,
        _get_role_config_group_path (some "c") "svc" "g" ++ "/roles", none,
        some (Json.obj [(ApiList.LIST_KEY,
          Json.arr (["a", "b"].map Json.str))])⟩
      = Except.ok (Json.obj [(ApiList.LIST_KEY,
          Json.arr [Json.obj [("name", Json.str "a")]])])
    ∧ ApiList.from_json_dict ApiRole.from_json_dict
        (Json.obj [(ApiList.LIST_KEY,
          Json.arr [Json.obj [("name", Json.str "a")]])])
      = Except.ok [⟨some "a"⟩]
    ∧ (move_roles subsetTransport "svc" "g" ["a", "b"] (some "c")).1
      = Except.ok [⟨some "a"⟩] :=
  ⟨rfl, rfl, C2_move_roles_return_decoded_list.1 subsetTransport "svc" "g"
      ["a", "b"] (some "c") _ [⟨some "a"⟩] rfl rfl⟩

/-- Every member of a successful exceptMap run is the successful image of
some input element. -/
theorem exceptMap_ok_mem {α β : Type} {f : α → Except ApiError β} :
    ∀ {xs : List α} {ys : List β}, exceptMap f xs = Except.ok ys →
      ∀ y ∈ ys, ∃ x, f x = Except.ok y := by
  intro xs
  induction xs with
  | nil =>
    intro ys h y hy
    simp only [exceptMap] at h
    injection h with h'
    subst h'
    cases hy
  | cons x xs ih =>
    intro ys h y hy
    simp only [exceptMap] at h
    cases hfx : f x with
    | error e => rw [hfx] at h; exact absurd h (by simp)
    | ok b =>
      rw [hfx] at h
      cases hrest : exceptMap f xs with
      | error e => rw [hrest] at h; exact absurd h (by simp)
      | ok bs =>
        rw [hrest] at h
        injection h with h'
        subst h'
        cases hy with
        | head => exact ⟨x, hfx⟩
        | tail _ hy' => exact ih hrest y hy'

/-- A config item decoded in summary mode carries a plain (optional
string) value. -/
theorem configItemFromJson_summary {item : Json} {kv : String × ConfigValue}
    (h : configItemFromJson false item = Except.ok kv) :
    ∃ v, kv.2 = ConfigValue.summary v := by
  unfold configItemFromJson at h
  split at h
  · split at h
    · simp at h
      subst h
      exact ⟨_, rfl⟩
    · exact absurd h (by simp)
  · exact absurd h (by simp)

/-- A config item decoded in full mode carries the rich item object. -/
theorem configItemFromJson_full {item : Json} {kv : String × ConfigValue}
    (h : configItemFromJson true item = Except.ok kv) :
    ∃ j, kv.2 = ConfigValue.full j := by
  unfold configItemFromJson at h
  split at h
  · split at h
    · simp at h
      subst h
      exact ⟨_, rfl⟩
    · exact absurd h (by simp)
  · exact absurd h (by simp)

/-- json_to_config in summary mode yields only plain values. -/
theorem json_to_config_summary {dic : Json}
    {m : List (String × ConfigValue)}
    (h : json_to_config dic false = Except.ok m) :
    ∀ kv ∈ m, ∃ v, kv.2 = ConfigValue.summary v := by
  intro kv hkv
  unfold json_to_config at h
  split at h
  · split at h
    · exact configItemFromJson_summary (exceptMap_ok_mem h kv hkv).choose_spec
    · exact absurd h (by simp)
  · exact absurd h (by simp)

/-- json_to_config in full mode yields only rich values. -/
theorem json_to_config_full {dic : Json}
    {m : List (String × ConfigValue)}
    (h : json_to_config dic true = Except.ok m) :
    ∀ kv ∈ m, ∃ j, kv.2 = ConfigValue.full j := by
  intro kv hkv
  unfold json_to_config at h
  split at h
  · split at h
    · exact configItemFromJson_full (exceptMap_ok_mem h kv hkv).choose_spec
    · exact absurd h (by simp)
  · exact absurd h (by simp)

/-- With serviceRef and name set, get_config reduces to one GET on the
singleton path plus /config, with the view parameter sent exactly when
view is truthy, and the response decoded by json_to_config with the full
flag set exactly when view equals full. -/
theorem get_config_eq (root : Transport) (g : ApiRoleConfigGroup)
    (ref : ApiServiceRef) (nm : String) (view : PyStr)
    (hs : g.serviceRef = some ref) (hn : g.name = some nm) :
    g.get_config root view
      = (match root ⟨Verb.get,
            _get_role_config_group_path ref.clusterName ref.serviceName nm
              ++ "/config",
            if pyTruthy view then some [("view", pyStrVal view)] else none,
            none⟩ with
         | Except.error e => Except.error e
         | Except.ok resp => json_to_config resp (view == some "full"),
         [⟨Verb.get,
            _get_role_config_group_path ref.clusterName ref.serviceName nm
              ++ "/config",
            if pyTruthy view then some [("view", pyStrVal view)] else none,
            none⟩]) := by
  have hp : g.selfPath = Except.ok
      (_get_role_config_group_path ref.clusterName ref.serviceName nm) := by
    simp [ApiRoleConfigGroup.selfPath, hs, hn]
  simp only [ApiRoleConfigGroup.get_config, hp]
  rfl

/-- C4: get_config issues a GET on the singleton path plus /config; with
view summary or full the request carries the view query parameter with
that value, with view absent it carries no query parameters; the decoded
mapping has plain values under summary and rich config objects under
full. -/
theorem C4_get_config_views :
    ∀ (root : Transport) (g : ApiRoleConfigGroup) (ref : ApiServiceRef)
      (nm : String), g.serviceRef = some ref → g.name = some nm →
      ((g.get_config root (some "summary")).2
        = [⟨Verb.get, _get_role_config_group_path ref.clusterName
              ref.serviceName nm ++ "/config",
            some [("view", "summary")], none⟩])
      ∧ ((g.get_config root (some "full")).2
        = [⟨Verb.get, _get_role_config_group_path ref.clusterName
              ref.serviceName nm ++ "/config",
            some [("view", "full")], none⟩])
      ∧ ((g.get_config root none).2
        = [⟨Verb.get, _get_role_config_group_path ref.clusterName
              ref.serviceName nm ++ "/config", none, none⟩])
      ∧ (∀ m, (g.get_config root (some "summary")).1 = Except.ok m →
          ∀ kv ∈ m, ∃ v, kv.2 = ConfigValue.summary v)
      ∧ (∀ m, (g.get_config root (some "full")).1 = Except.ok m →
          ∀ kv ∈ m, ∃ j, kv.2 = ConfigValue.full j) := by
  intro root g ref nm hs hn
  refine ⟨?_, ?_, ?_, fun m hm kv hkv => ?_, fun m hm kv hkv => ?_⟩
  · rw [get_config_eq root g ref nm (some "summary") hs hn]
    rfl
  · rw [get_config_eq root g ref nm (some "full") hs hn]
    rfl
  · rw [get_config_eq root g ref nm none hs hn]
    rfl
  · rw [get_config_eq root g ref nm (some "summary") hs hn] at hm
    have hm' : (match root ⟨Verb.get,
        _get_role_config_group_path ref.clusterName ref.serviceName nm
          ++ "/config", some [("view", "summary")], none⟩ with
      | Except.error e => Except.error e
      | Except.ok resp => json_to_config resp false) = Except.ok m := hm
    cases hr : root ⟨Verb.get,
        _get_role_config_group_path ref.clusterName ref.serviceName nm
          ++ "/config", some [("view", "summary")], none⟩ with
    | error e => rw [hr] at hm'; exact absurd hm' (by simp)
    | ok resp => rw [hr] at hm'; exact json_to_config_summary hm' kv hkv
  · rw [get_config_eq root g ref nm (some "full") hs hn] at hm
    have hm' : (match root ⟨Verb.get,
        _get_role_config_group_path ref.clusterName ref.serviceName nm
          ++ "/config", some [("view", "full")], none⟩ with
      | Except.error e => Except.error e
      | Except.ok resp => json_to_config resp true) = Except.ok m := hm
    cases hr : root ⟨Verb.get,
        _get_role_config_group_path ref.clusterName ref.serviceName nm
          ++ "/config", some [("view", "full")], none⟩ with
    | error e => rw [hr] at hm'; exact absurd hm' (by simp)
    | ok resp => rw [hr] at hm'; exact json_to_config_full hm' kv hkv

/-- Witness for C4 at the spec's config fixture: the summary request
carries view=summary and the decoded mapping is the plain k to v pair. -/
theorem C4_get_config_views_witness :
    cfgGroup.serviceRef = some cfgRef
    ∧ cfgGroup.name = some "g"
    ∧ (cfgGroup.get_config cfgTransport (some "summary")).2
      = [⟨Verb.get, _get_role_config_group_path cfgRef.clusterName
            cfgRef.serviceName "g" ++ "/config",
          some [("view", "summary")], none⟩]
    ∧ (cfgGroup.get_config cfgTransport (some "summary")).1
      = Except.ok [("k", ConfigValue.summary (some "v"))] :=
  ⟨rfl, rfl,
    (C4_get_config_views cfgTransport cfgGroup cfgRef "g" rfl rfl).1, rfl⟩

/-- C9: with a falsy view (None or the empty string, pyTruthy false) the
GET carries params None; with any truthy view the view parameter carries
that string; the response is decoded by json_to_config with the full flag
exactly when view equals full, so any truthy view other than full is
forwarded as a query parameter yet decoded in summary mode. -/
theorem C9_get_config_view_edge_cases :
    ∀ (root : Transport) (g : ApiRoleConfigGroup) (ref : ApiServiceRef)
      (nm : String) (view : PyStr),
      g.serviceRef = some ref → g.name = some nm →
      (pyTruthy view = false →
        (g.get_config root view).2
          = [⟨Verb.get, _get_role_config_group_path ref.clusterName
                ref.serviceName nm ++ "/config", none, none⟩])
      ∧ (pyTruthy view = true →
        (g.get_config root view).2
          = [⟨Verb.get, _get_role_config_group_path ref.clusterName
                ref.serviceName nm ++ "/config",
              some [("view", pyStrVal view)], none⟩])
      ∧ (∀ resp : Json,
          root ⟨Verb.get, _get_role_config_group_path ref.clusterName
              ref.serviceName nm ++ "/config",
            if pyTruthy view then some [("view", pyStrVal view)] else none,
            none⟩ = Except.ok resp →
          (g.get_config root view).1
            = json_to_config resp (view == some "full"))
      ∧ (pyTruthy view = true → view ≠ some "full" →
          ∀ m, (g.get_config root view).1 = Except.ok m →
            ∀ kv ∈ m, ∃ v, kv.2 = ConfigValue.summary v) := by
  intro root g ref nm view hs hn
  refine ⟨fun hf => ?_, fun ht => ?_, fun resp hr => ?_,
    fun ht hnf m hm kv hkv => ?_⟩
  · rw [get_config_eq root g ref nm view hs hn]
    simp [hf]
  · rw [get_config_eq root g ref nm view hs hn]
    simp [ht]
  · rw [get_config_eq root g ref nm view hs hn]
    show (match root ⟨Verb.get, _get_role_config_group_path ref.clusterName
          ref.serviceName nm ++ "/config",
        if pyTruthy view then some [("view", pyStrVal view)] else none,
        none⟩ with
      | Except.error e => Except.error e
      | Except.ok resp => json_to_config resp (view == some "full"))
      = json_to_config resp (view == some "full")
    rw [hr]
  · rw [get_config_eq root g ref nm view hs hn] at hm
    have hm' : (match root ⟨Verb.get,
        _get_role_config_group_path ref.clusterName ref.serviceName nm
          ++ "/config",
        if pyTruthy view then some [("view", pyStrVal view)] else none,
        none⟩ with
      | Except.error e => Except.error e
      | Except.ok resp => json_to_config resp (view == some "full"))
      = Except.ok m := hm
    have hflag : (view == some "full") = false := by
      rw [beq_eq_false_iff_ne]
      exact hnf
    cases hr : root ⟨Verb.get,
        _get_role_config_group_path ref.clusterName ref.serviceName nm
          ++ "/config",
        if pyTruthy view then some [("view", pyStrVal view)] else none,
        none⟩ with
    | error e => rw [hr] at hm'; exact absurd hm' (by simp)
    | ok resp =>
      rw [hr] at hm'
      rw [hflag] at hm'
      exact json_to_config_summary hm' kv hkv

/-- Witness for C9 at an undocumented truthy view string: it is forwarded
as the view parameter and decoded in summary mode. -/
theorem C9_get_config_view_edge_cases_witness :
    cfgGroup.serviceRef = some cfgRef
    ∧ cfgGroup.name = some "g"
    ∧ pyTruthy (some "export") = true
    ∧ (some "export" : PyStr) ≠ some "full"
    ∧ (cfgGroup.get_config cfgTransport (some "export")).2
      = [⟨Verb.get, _get_role_config_group_path cfgRef.clusterName
            cfgRef.serviceName "g" ++ "/config",
          some [("view", pyStrVal (some "export"))], none⟩] :=
  ⟨rfl, rfl, by decide, by decide,
    (C9_get_config_view_edge_cases cfgTransport cfgGroup cfgRef "g"
        (some "export") rfl rfl).2.1 (by decide)⟩

/-- C10: update_config decodes the server's response with the full flag at
its Python default False, so a successful result maps keys to plain
summary values only, never rich full-view objects. -/
theorem C10_update_config_summary_decode :
    ∀ (root : Transport) (g : ApiRoleConfigGroup)
      (config : List (String × String)) (m : List (String × ConfigValue)),
      (g.update_config root config).1 = Except.ok m →
      ∀ kv ∈ m, ∃ v, kv.2 = ConfigValue.summary v := by
  intro root g config m hm kv hkv
  unfold ApiRoleConfigGroup.update_config at hm
  cases hp : g.selfPath with
  | error e => rw [hp] at hm; exact absurd hm (by simp)
  | ok p =>
    rw [hp] at hm
    have hm' : (match root ⟨Verb.put, p ++ "/config", none,
        some (config_to_json config)⟩ with
      | Except.error e => Except.error e
      | Except.ok resp => json_to_config resp false) = Except.ok m := hm
    cases hr : root ⟨Verb.put, p ++ "/config", none,
        some (config_to_json config)⟩ with
    | error e => rw [hr] at hm'; exact absurd hm' (by simp)
    | ok resp =>
      rw [hr] at hm'
      exact json_to_config_summary hm' kv hkv

/-- Witness for C10 at the spec's config fixture: the updated mapping
comes back with a plain summary value. -/
theorem C10_update_config_summary_decode_witness :
    (cfgGroup.update_config cfgTransport [("k", "v2")]).1
      = Except.ok [("k", ConfigValue.summary (some "v"))]
    ∧ (∃ v, (("k", ConfigValue.summary (some "v")) :
        String × ConfigValue).2 = ConfigValue.summary v) :=
  ⟨rfl, C10_update_config_summary_decode cfgTransport cfgGroup [("k", "v2")]
      [("k", ConfigValue.summary (some "v"))] rfl
      ("k", ConfigValue.summary (some "v")) (by simp)⟩
